import Mathlib

/-!
Verification of the Tuvok remote-protocol parameter wrappers
(`IO/sockethelper/parameterwrapper.cpp`), the external dataset store
(`ExternalDataset.h`) and the slice-based volume renderer state setup
(`Renderer/GL/GLSBVR2D.cpp`), shallowly embedded in Lean.

The socket helper primitives (`sockhelp`) are not part of the sources at
hand; they are modelled from the wire-format section of the design
document: all multibyte integers are big-endian, strings are a `u16`
length followed by that many bytes, float vectors are a `u32` length
followed by that many IEEE-754 32-bit words, and `size_t` values travel
as `u32`.  Floats are carried as their 32-bit bit patterns (`Nat`),
which is all the serialization layer touches.
-/

/-! ## Byte-stream model of the socket helpers -/

/-- Modelled from the spec: `wru8` of sockhelp (absent from the sources)
writes one byte. -/
def wru8 (n : Nat) : List Nat := [n % 256]

/-- Modelled from the spec: `wru16` writes a 16-bit integer big-endian. -/
def wru16 (n : Nat) : List Nat := [n / 256 % 256, n % 256]

/-- Modelled from the spec: `wru32` writes a 32-bit integer big-endian. -/
def wru32 (n : Nat) : List Nat :=
  [n / 16777216 % 256, n / 65536 % 256, n / 256 % 256, n % 256]

/-- Modelled from the spec: `wrsizet` transmits a `size_t` as a `u32`. -/
def wrsizet (n : Nat) : List Nat := wru32 n

/-- Modelled from the spec: `ru8` reads one byte from the stream. -/
def ru8 : List Nat → Option (Nat × List Nat)
  | [] => none
  | b :: rest => some (b, rest)

/-- Modelled from the spec: `ru16` reads a big-endian 16-bit integer. -/
def ru16 : List Nat → Option (Nat × List Nat)
  | b0 :: b1 :: rest => some (b0 * 256 + b1, rest)
  | _ => none

/-- Modelled from the spec: `ru32` reads a big-endian 32-bit integer. -/
def ru32 : List Nat → Option (Nat × List Nat)
  | b0 :: b1 :: b2 :: b3 :: rest =>
      some (((b0 * 256 + b1) * 256 + b2) * 256 + b3, rest)
  | _ => none

/-- Modelled from the spec: `rsizet` reads a `size_t` sent as a `u32`. -/
def rsizet (s : List Nat) : Option (Nat × List Nat) := ru32 s

/-- Modelled from the spec: `readFromSocket` reads a given number of raw
bytes. -/
def readBytes (n : Nat) (s : List Nat) : Option (List Nat × List Nat) :=
  if n ≤ s.length then some (s.take n, s.drop n) else none

/-- Reads `n` consecutive 32-bit big-endian words. -/
def readU32s : Nat → List Nat → Option (List Nat × List Nat)
  | 0, s => some ([], s)
  | n + 1, s => do
      let (v, s1) ← ru32 s
      let (vs, s2) ← readU32s n s1
      some (v :: vs, s2)

/-- Modelled from the spec: `rf32v` reads a `u32` length, then that many
32-bit float words; it reports the vector and the length that was read. -/
def rf32v (s : List Nat) : Option ((List Nat × Nat) × List Nat) := do
  let (len, s1) ← ru32 s
  let (vs, s2) ← readU32s len s1
  some ((vs, len), s2)

/-- Modelled from the spec: `wrf32v` writes a `u32` count followed by
`count` 32-bit float words taken from the buffer. -/
def wrf32v (vs : List Nat) (count : Nat) : List Nat :=
  wru32 count ++ (vs.take count).flatMap wru32

/-- Modelled from the spec: `wru32v` writes a sequence of `u32` values
(the surrounding response layout carries the count separately). -/
def wru32v (vs : List Nat) : List Nat := vs.flatMap wru32

/-- Modelled from the spec: `wrsizetv_d` writes a sequence of `size_t`
values as `u32` data words. -/
def wrsizetv_d (vs : List Nat) : List Nat := vs.flatMap wru32

/-- Modelled from the spec: `wrf32v_d` writes float data words with no
length prefix. -/
def wrf32v_d (vs : List Nat) : List Nat := vs.flatMap wru32

/-- Modelled from the spec: `wru32v_d` writes `u32` data words with no
length prefix. -/
def wru32v_d (vs : List Nat) : List Nat := vs.flatMap wru32

/-! ## Request wrappers (`parameterwrapper.cpp`) -/

/-- Modelled from the spec: the `NetDSCommandCode` enumeration lives in
`parameterwrapper.h`, which is absent from the sources; its constants are
assigned consecutive values in the order of the spec's command table. -/
inductive NetDSCommandCode
  | nds_OPEN
  | nds_CLOSE
  | nds_LIST_FILES
  | nds_BATCHSIZE
  | nds_ROTATION
  | nds_BRICK
  | nds_SHUTDOWN
deriving DecidableEq

def NetDSCommandCode.toNat : NetDSCommandCode → Nat
  | .nds_OPEN => 0
  | .nds_CLOSE => 1
  | .nds_LIST_FILES => 2
  | .nds_BATCHSIZE => 3
  | .nds_ROTATION => 4
  | .nds_BRICK => 5
  | .nds_SHUTDOWN => 6

/-- Fields of `OpenParams`: a length and a filename buffer. -/
structure OpenParams where
  len : Nat
  filename : List Nat
deriving DecidableEq

/-- Fields of `CloseParams`: a length and a filename buffer. -/
structure CloseParams where
  len : Nat
  filename : List Nat
deriving DecidableEq

/-- Fields of `BatchSizeParams`. -/
structure BatchSizeParams where
  newBatchSize : Nat
deriving DecidableEq

/-- Fields of `RotateParams`: the matrix buffer of float words, the
vector size reported by `rf32v`, and the element-type tag. -/
structure RotateParams where
  matrix : List Nat
  matSize : Nat
  type : Nat
deriving DecidableEq

/-- Fields of `BrickParams`: an element-type tag, LOD and brick index. -/
structure BrickParams where
  type : Nat
  lod : Nat
  bidx : Nat
deriving DecidableEq

/-- A parsed remote-protocol request, one variant per command. -/
inductive Request
  | openCmd : OpenParams → Request
  | closeCmd : CloseParams → Request
  | listFiles : Request
  | batchSize : BatchSizeParams → Request
  | rotation : RotateParams → Request
  | brick : BrickParams → Request
  | shutdown : Request
deriving DecidableEq

/-- Embeds `OpenParams::initFromSocket`: `ru16` of `len`, then `len` raw
bytes into `filename`. -/
def OpenParams.initFromSocket (s : List Nat) : Option (OpenParams × List Nat) := do
  let (len, s1) ← ru16 s
  let (fname, s2) ← readBytes len s1
  some (⟨len, fname⟩, s2)

/-- Embeds `CloseParams::initFromSocket`. -/
def CloseParams.initFromSocket (s : List Nat) : Option (CloseParams × List Nat) := do
  let (len, s1) ← ru16 s
  let (fname, s2) ← readBytes len s1
  some (⟨len, fname⟩, s2)

/-- Embeds `BatchSizeParams::initFromSocket`: `rsizet` into
`newBatchSize`. -/
def BatchSizeParams.initFromSocket (s : List Nat) :
    Option (BatchSizeParams × List Nat) := do
  let (n, s1) ← rsizet s
  some (⟨n⟩, s1)

/-- Embeds `RotateParams::initFromSocket`: `rf32v` into `matrix` and
`matSize`, then `ru8` into `type`. -/
def RotateParams.initFromSocket (s : List Nat) :
    Option (RotateParams × List Nat) := do
  let ((m, msize), s1) ← rf32v s
  let (ty, s2) ← ru8 s1
  some (⟨m, msize, ty⟩, s2)

/-- Embeds `BrickParams::initFromSocket`: `ru8` of `type`, `ru32` of
`lod`, `ru32` of `bidx`. -/
def BrickParams.initFromSocket (s : List Nat) :
    Option (BrickParams × List Nat) := do
  let (ty, s1) ← ru8 s
  let (lod, s2) ← ru32 s1
  let (bidx, s3) ← ru32 s2
  some (⟨ty, lod, bidx⟩, s3)

/-- Embeds `OpenParams::writeToSocket`: command byte, `wru16` of `len`,
then `len` bytes of `filename`. -/
def OpenParams.writeToSocket (p : OpenParams) : List Nat :=
  wru8 NetDSCommandCode.nds_OPEN.toNat ++ wru16 p.len ++ p.filename.take p.len

/-- Embeds `CloseParams::writeToSocket`. -/
def CloseParams.writeToSocket (p : CloseParams) : List Nat :=
  wru8 NetDSCommandCode.nds_CLOSE.toNat ++ wru16 p.len ++ p.filename.take p.len

/-- Embeds `BatchSizeParams::writeToSocket`: command byte then `wrsizet`
of `newBatchSize`. -/
def BatchSizeParams.writeToSocket (p : BatchSizeParams) : List Nat :=
  wru8 NetDSCommandCode.nds_BATCHSIZE.toNat ++ wrsizet p.newBatchSize

/-- Embeds `RotateParams::writeToSocket`: command byte then
`wrf32v(matrix, 16)`.  Note no `type` byte is written. -/
def RotateParams.writeToSocket (p : RotateParams) : List Nat :=
  wru8 NetDSCommandCode.nds_ROTATION.toNat ++ wrf32v p.matrix 16

/-- Embeds `BrickParams::writeToSocket`: command byte, `wru32` of `lod`,
`wru32` of `bidx`.  Note no `type` byte is written. -/
def BrickParams.writeToSocket (p : BrickParams) : List Nat :=
  wru8 NetDSCommandCode.nds_BRICK.toNat ++ wru32 p.lod ++ wru32 p.bidx

/-- Embeds `SimpleParams::writeToSocket`: just the command byte. -/
def SimpleParams.writeToSocket (code : NetDSCommandCode) : List Nat :=
  wru8 code.toNat

/-- Serialization of a request with `writeToSocket` of its class. -/
def Request.writeToSocket : Request → List Nat
  | .openCmd p => p.writeToSocket
  | .closeCmd p => p.writeToSocket
  | .listFiles => SimpleParams.writeToSocket .nds_LIST_FILES
  | .batchSize p => p.writeToSocket
  | .rotation p => p.writeToSocket
  | .brick p => p.writeToSocket
  | .shutdown => SimpleParams.writeToSocket .nds_SHUTDOWN

/-- Deserialization: read the command byte, then run the matching
`initFromSocket` on the remaining bytes (`SimpleParams` variants read
nothing). -/
def readRequest (s : List Nat) : Option (Request × List Nat) := do
  let (c, s1) ← ru8 s
  if c = NetDSCommandCode.nds_OPEN.toNat then
    (OpenParams.initFromSocket s1).map (fun pr => (.openCmd pr.1, pr.2))
  else if c = NetDSCommandCode.nds_CLOSE.toNat then
    (CloseParams.initFromSocket s1).map (fun pr => (.closeCmd pr.1, pr.2))
  else if c = NetDSCommandCode.nds_LIST_FILES.toNat then
    some (.listFiles, s1)
  else if c = NetDSCommandCode.nds_BATCHSIZE.toNat then
    (BatchSizeParams.initFromSocket s1).map (fun pr => (.batchSize pr.1, pr.2))
  else if c = NetDSCommandCode.nds_ROTATION.toNat then
    (RotateParams.initFromSocket s1).map (fun pr => (.rotation pr.1, pr.2))
  else if c = NetDSCommandCode.nds_BRICK.toNat then
    (BrickParams.initFromSocket s1).map (fun pr => (.brick pr.1, pr.2))
  else if c = NetDSCommandCode.nds_SHUTDOWN.toNat then
    some (.shutdown, s1)
  else
    none

/-- C1: for every remote-protocol request value of every command variant,
serializing with `writeToSocket` and then deserializing with
`initFromSocket` yields the request back, including the `type` field of
ROTATION and BRICK requests.  The code violates this: neither
`BrickParams::writeToSocket` nor `RotateParams::writeToSocket` emits the
`type` byte that the matching `initFromSocket` consumes, so the BRICK
parse misaligns and runs out of bytes and the ROTATION parse fails at the
trailing `ru8`; the round trip does hold for the other five variants, as
the remaining conjuncts record. -/
theorem writeToSocket_initFromSocket_type_dropped :
    readRequest (Request.writeToSocket (.brick ⟨1, 2, 3⟩)) = none ∧
    readRequest (Request.writeToSocket (.rotation ⟨List.replicate 16 0, 16, 1⟩)) = none ∧
    readRequest (Request.writeToSocket (.openCmd ⟨2, [65, 66]⟩)) =
      some (.openCmd ⟨2, [65, 66]⟩, []) ∧
    readRequest (Request.writeToSocket (.closeCmd ⟨0, []⟩)) =
      some (.closeCmd ⟨0, []⟩, []) ∧
    readRequest (Request.writeToSocket (.batchSize ⟨4096⟩)) =
      some (.batchSize ⟨4096⟩, []) ∧
    readRequest (Request.writeToSocket .listFiles) = some (.listFiles, []) ∧
    readRequest (Request.writeToSocket .shutdown) = some (.shutdown, []) := by
  decide

/-! ## MPI fan-out (`mpi_sync` methods)

`mpi_sync(rank, srcRank)` runs an `MPI_Bcast` collective per field: after
the call every rank's field buffer holds the source rank's bytes, and
fields that are not broadcast keep the receiving rank's prior contents.
Each method is embedded as a function from the source rank's request and
the worker's prior state to the worker's state after the collective. -/

/-- Embeds `OpenParams::mpi_sync`: broadcasts `len` and then `len` bytes
of `filename`. -/
def OpenParams.mpi_sync (src _pre : OpenParams) : OpenParams :=
  ⟨src.len, src.filename.take src.len⟩

/-- Embeds `CloseParams::mpi_sync`: broadcasts `len` and `len` filename
bytes. -/
def CloseParams.mpi_sync (src _pre : CloseParams) : CloseParams :=
  ⟨src.len, src.filename.take src.len⟩

/-- Embeds `BatchSizeParams::mpi_sync`: the value passes through a
`uint32_t` temporary on every rank, so it arrives truncated mod 2^32. -/
def BatchSizeParams.mpi_sync (src _pre : BatchSizeParams) : BatchSizeParams :=
  ⟨src.newBatchSize % 4294967296⟩

/-- Embeds `RotateParams::mpi_sync`: broadcasts exactly 16 floats of
`matrix` and nothing else; `matSize` and `type` are not broadcast and
keep the worker's prior contents. -/
def RotateParams.mpi_sync (src pre : RotateParams) : RotateParams :=
  ⟨src.matrix.take 16, pre.matSize, pre.type⟩

/-- Embeds `BrickParams::mpi_sync`: broadcasts `type`, `lod` and `bidx`. -/
def BrickParams.mpi_sync (src _pre : BrickParams) : BrickParams := src

/-- Fan-out of a whole request: every rank runs `mpi_sync` on the wrapper
built for the same command code, so the variants always match; mismatched
pairs (never produced by the protocol loop) leave the worker unchanged. -/
def Request.mpi_sync : Request → Request → Request
  | .openCmd s, .openCmd p => .openCmd (OpenParams.mpi_sync s p)
  | .closeCmd s, .closeCmd p => .closeCmd (CloseParams.mpi_sync s p)
  | .batchSize s, .batchSize p => .batchSize (BatchSizeParams.mpi_sync s p)
  | .rotation s, .rotation p => .rotation (RotateParams.mpi_sync s p)
  | .brick s, .brick p => .brick (BrickParams.mpi_sync s p)
  | .listFiles, .listFiles => .listFiles
  | .shutdown, .shutdown => .shutdown
  | _, pre => pre

/-- C2 counterexample: a worker whose uninitialized `type` field is 0
does not end up equal to rank 0's parsed ROTATION request with `type`
1, because `RotateParams::mpi_sync` never broadcasts `type`. -/
theorem rotate_mpi_sync_type_not_broadcast :
    ¬ Request.mpi_sync
        (.rotation ⟨List.replicate 16 0, 16, 1⟩)
        (.rotation ⟨List.replicate 16 0, 16, 0⟩)
      = .rotation ⟨List.replicate 16 0, 16, 1⟩ := by
  decide

/-- C2 amended: after the broadcast collective the worker holds rank 0's
fields for OPEN and CLOSE (`len` and the first `len` filename bytes, all
of them for a parsed request), for BATCHSIZE the batch size reduced mod
2^32 (a no-op for wire-parsed sizes), and for BRICK all three fields;
for ROTATION only the 16 matrix floats are synchronized while the
worker's prior `matSize` and `type` survive. -/
theorem mpi_sync_characterization :
    (∀ (src pre : OpenParams),
        OpenParams.mpi_sync src pre = ⟨src.len, src.filename.take src.len⟩) ∧
    (∀ (src pre : CloseParams),
        CloseParams.mpi_sync src pre = ⟨src.len, src.filename.take src.len⟩) ∧
    (∀ (src pre : BatchSizeParams),
        BatchSizeParams.mpi_sync src pre = ⟨src.newBatchSize % 4294967296⟩) ∧
    (∀ (src pre : BrickParams), BrickParams.mpi_sync src pre = src) ∧
    (∀ (src pre : RotateParams),
        RotateParams.mpi_sync src pre = ⟨src.matrix.take 16, pre.matSize, pre.type⟩) :=
  ⟨fun _ _ => rfl, fun _ _ => rfl, fun _ _ => rfl, fun _ _ => rfl, fun _ _ => rfl⟩

/-! ## External dataset store (`ExternalDataset.h`)

A brick key is `(timestep, lod, linear_index)`; metadata carries center,
extents and voxel counts (float components as 32-bit words).  The
implementation file of `ExternalDataset` is not among the sources, so the
mutating operations are modelled from the spec; the header's inline
members (`GetBrickOverlapSize`, `GetEffectiveBrickSize`,
`GetLODLevelCount`, `GetComponentCount`) are embedded from the source. -/

/-- Brick key `(timestep, lod, linear_index)`. -/
structure BrickKey where
  timestep : Nat
  lod : Nat
  bidx : Nat
deriving DecidableEq

/-- Brick metadata: center, extents (float bit patterns) and voxel
counts. -/
structure BrickMD where
  center : Nat × Nat × Nat
  extents : Nat × Nat × Nat
  n_voxels : Nat × Nat × Nat
deriving DecidableEq

/-- Modelled from the spec: the cached 1-D histogram is either explicitly
supplied, lazily computed and cached, or stale after a write
(`ExternalDataset.cpp` with `SetHistogram` and `Recalculate1DHistogram`
is absent from the sources). -/
inductive HistoState
  | supplied (h : List Nat)
  | cached (h : List Nat)
  | stale
deriving DecidableEq

/-- State of an `ExternalDataset`: the data table keyed by brick key, the
brick metadata table of the underlying `BrickedDataset`, the domain size,
the scalar range and the histogram cache. -/
structure ExternalDataset where
  m_Data : List (BrickKey × List Nat)
  metadata : List (BrickKey × BrickMD)
  m_vDomainSize : Nat × Nat × Nat
  m_DataRange : Int × Int
  histo : HistoState
deriving DecidableEq

/-- Metadata lookup of `BrickedDataset::GetBrickMetadata`. -/
def ExternalDataset.GetBrickMetadata (d : ExternalDataset) (bk : BrickKey) :
    Option BrickMD :=
  (d.metadata.find? (fun e => e.1 = bk)).map (·.2)

/-- Embeds `ExternalDataset::GetBrickOverlapSize`: hardcoded `(1,1,1)`. -/
def ExternalDataset.GetBrickOverlapSize (_d : ExternalDataset) : Nat × Nat × Nat :=
  (1, 1, 1)

/-- Embeds `ExternalDataset::GetEffectiveBrickSize`: `n_voxels - 1` on
every axis, in `uint32` arithmetic, for every brick regardless of its
position (the source marks this with a FIXME as wrong for boundary
bricks). -/
def ExternalDataset.GetEffectiveBrickSize (d : ExternalDataset) (bk : BrickKey) :
    Option (Nat × Nat × Nat) :=
  (d.GetBrickMetadata bk).map (fun md =>
    ((md.n_voxels.1 + 4294967295) % 4294967296,
     (md.n_voxels.2.1 + 4294967295) % 4294967296,
     (md.n_voxels.2.2 + 4294967295) % 4294967296))

/-- Embeds `ExternalDataset::GetLODLevelCount`: hardcoded 1. -/
def ExternalDataset.GetLODLevelCount (_d : ExternalDataset) : Nat := 1

/-- Embeds `ExternalDataset::GetComponentCount`: hardcoded 1 (emitting a
warning about assuming single-component data). -/
def ExternalDataset.GetComponentCount (_d : ExternalDataset) : Nat := 1

/-- Overlap contributed by the two faces of one axis per the spec: 1 for
an internal face, 0 for a domain-boundary face; a brick at grid position
`i` of `n` has an internal low face when `0 < i` and an internal high
face when `i + 1 < n`. -/
def faceOverlap (i n : Nat) : Nat :=
  (if 0 < i then 1 else 0) + (if i + 1 < n then 1 else 0)

/-- Grid position of a row-major linear brick index in a per-LOD layout. -/
def brickPosition (layout : Nat × Nat × Nat) (idx : Nat) : Nat × Nat × Nat :=
  (idx % layout.1, idx / layout.1 % layout.2.1, idx / (layout.1 * layout.2.1))

/-- Spec-side definition of the effective brick size: `n_voxels` minus
the per-face overlap on each axis. -/
def effectiveBrickSizeSpec (layout pos voxels : Nat × Nat × Nat) :
    Nat × Nat × Nat :=
  (voxels.1 - faceOverlap pos.1 layout.1,
   voxels.2.1 - faceOverlap pos.2.1 layout.2.1,
   voxels.2.2 - faceOverlap pos.2.2 layout.2.2)

/-- A dataset holding one single brick of 8×8×8 voxels: its brick grid is
`(1,1,1)`, so all six faces lie on the domain boundary. -/
def dsSingleBrick : ExternalDataset :=
  { m_Data := [(⟨0, 0, 0⟩, [])]
    metadata := [(⟨0, 0, 0⟩, ⟨(0, 0, 0), (0, 0, 0), (8, 8, 8)⟩)]
    m_vDomainSize := (8, 8, 8)
    m_DataRange := (0, 0)
    histo := .stale }

/-- C3: the source computes `effective_brick_size` as `n_voxels - 1` on
every axis even for a brick all of whose faces are domain faces, where
the per-face overlap rule requires `n_voxels` unchanged: on a single
8×8×8 brick the code yields `(7,7,7)` while the specified overlap rule
yields `(8,8,8)`.  This matches the FIXME in the source that calls the
computation wrong for non-internal bricks. -/
theorem effectiveBrickSize_domain_face_bug :
    dsSingleBrick.GetEffectiveBrickSize ⟨0, 0, 0⟩ = some (7, 7, 7) ∧
    effectiveBrickSizeSpec (1, 1, 1) (brickPosition (1, 1, 1) 0) (8, 8, 8)
      = (8, 8, 8) ∧
    dsSingleBrick.GetBrickOverlapSize = (1, 1, 1) := by
  decide

/-! ## Mutating operations and the histogram cache

Modelled from the spec: `add_brick`, `update_data`, `clear` and
`set_range` are the write operations; each invalidates the cached
histogram unless one is explicitly supplied afterwards; a histogram query
answers an explicitly supplied histogram verbatim, otherwise it lazily
recomputes from the current brick set and caches the result. -/

/-- An operation on the store (the histogram recomputation function is a
parameter of the semantics). -/
inductive DSOp
  | addBrick (k : BrickKey) (md : BrickMD) (payload : List Nat)
  | updateData (k : BrickKey) (payload : List Nat)
  | clear
  | setRange (lo hi : Int)
  | setHistogram (h : List Nat)
  | queryHistogram
deriving DecidableEq

/-- The four write operations on the store. -/
def DSOp.isStoreWrite : DSOp → Bool
  | .addBrick _ _ _ => true
  | .updateData _ _ => true
  | .clear => true
  | .setRange _ _ => true
  | _ => false

/-- Discriminates the explicit histogram upload. -/
def DSOp.isSetHistogram : DSOp → Bool
  | .setHistogram _ => true
  | _ => false

/-- Modelled from the spec: one step of the store.  Writes invalidate the
histogram cache; `setHistogram` installs an explicit histogram; a query
on a stale cache recomputes from the current data and caches. -/
def dsStep (recompute : List (BrickKey × List Nat) → List Nat)
    (d : ExternalDataset) : DSOp → ExternalDataset
  | .addBrick k md p =>
      { d with m_Data := d.m_Data ++ [(k, p)],
               metadata := d.metadata ++ [(k, md)],
               histo := .stale }
  | .updateData k p =>
      { d with m_Data := d.m_Data.map (fun e => if e.1 = k then (k, p) else e),
               histo := .stale }
  | .clear => { d with m_Data := [], metadata := [], histo := .stale }
  | .setRange lo hi => { d with m_DataRange := (lo, hi), histo := .stale }
  | .setHistogram h => { d with histo := .supplied h }
  | .queryHistogram =>
      match d.histo with
      | .stale => { d with histo := .cached (recompute d.m_Data) }
      | _ => d

/-- Runs a sequence of operations. -/
def dsRun (recompute : List (BrickKey × List Nat) → List Nat)
    (d : ExternalDataset) (ops : List DSOp) : ExternalDataset :=
  ops.foldl (dsStep recompute) d

/-- The value a histogram query returns in a given state. -/
def histogramVal (recompute : List (BrickKey × List Nat) → List Nat)
    (d : ExternalDataset) : List Nat :=
  match d.histo with
  | .supplied h => h
  | .cached h => h
  | .stale => recompute d.m_Data

/-- An explicitly supplied histogram survives every operation that is
neither a store write nor another explicit upload. -/
theorem histo_supplied_stable (recompute : List (BrickKey × List Nat) → List Nat)
    (h : List Nat) (ops : List DSOp)
    (hops : ∀ op ∈ ops, op.isStoreWrite = false ∧ op.isSetHistogram = false) :
    ∀ d : ExternalDataset, d.histo = .supplied h →
      (dsRun recompute d ops).histo = .supplied h := by
  induction ops with
  | nil => intro d hd; simpa [dsRun] using hd
  | cons op rest ih =>
      intro d hd
      have hop := hops op (List.mem_cons_self op rest)
      have hrest : ∀ op ∈ rest, op.isStoreWrite = false ∧ op.isSetHistogram = false :=
        fun o ho => hops o (List.mem_cons_of_mem op ho)
      have hstep : (dsStep recompute d op).histo = .supplied h := by
        cases op with
        | addBrick k md p => simp [DSOp.isStoreWrite] at hop
        | updateData k p => simp [DSOp.isStoreWrite] at hop
        | clear => simp [DSOp.isStoreWrite] at hop
        | setRange lo hi => simp [DSOp.isStoreWrite] at hop
        | setHistogram h2 => simp [DSOp.isSetHistogram] at hop
        | queryHistogram => simp [dsStep, hd]
      have : dsRun recompute d (op :: rest) = dsRun recompute (dsStep recompute d op) rest := rfl
      rw [this]
      exact ih hrest _ hstep

/-- C8: after `set_histogram(h)` every histogram query answers exactly
`h` as long as no store write (and no further explicit upload) happens,
and each of the four write operations (`add_brick`, `update_data`,
`clear`, `set_range`) invalidates the cached histogram. -/
theorem set_histogram_persists_until_write
    (recompute : List (BrickKey × List Nat) → List Nat)
    (d : ExternalDataset) (h : List Nat) (ops : List DSOp)
    (hops : ∀ op ∈ ops, op.isStoreWrite = false ∧ op.isSetHistogram = false) :
    histogramVal recompute
      (dsRun recompute (dsStep recompute d (.setHistogram h)) ops) = h ∧
    ∀ w : DSOp, w.isStoreWrite = true →
      (dsStep recompute (dsStep recompute d (.setHistogram h)) w).histo
        = .stale := by
  constructor
  · have hsup : (dsStep recompute d (.setHistogram h)).histo = .supplied h := rfl
    have := histo_supplied_stable recompute h ops hops _ hsup
    simp [histogramVal, this]
  · intro w hw
    cases w with
    | addBrick k md p => rfl
    | updateData k p => rfl
    | clear => rfl
    | setRange lo hi => rfl
    | setHistogram h2 => simp [DSOp.isSetHistogram, DSOp.isStoreWrite] at hw
    | queryHistogram => simp [DSOp.isStoreWrite] at hw

/-- C8 witness: the theorem applied to a concrete store, histogram
`[1,2,3]` and two subsequent queries. -/
theorem set_histogram_persists_witness :
    histogramVal (fun _ => [])
      (dsRun (fun _ => [])
        (dsStep (fun _ => []) dsSingleBrick (.setHistogram [1, 2, 3]))
        [.queryHistogram, .queryHistogram]) = [1, 2, 3] ∧
    ∀ w : DSOp, w.isStoreWrite = true →
      (dsStep (fun _ => [])
        (dsStep (fun _ => []) dsSingleBrick (.setHistogram [1, 2, 3])) w).histo
        = .stale :=
  set_histogram_persists_until_write (fun _ => []) dsSingleBrick [1, 2, 3]
    [.queryHistogram, .queryHistogram] (by decide)

/-- C7: `GetComponentCount` returns 1 in every dataset state, in
particular after any sequence of store operations. -/
theorem componentCount_always_one
    (recompute : List (BrickKey × List Nat) → List Nat)
    (d : ExternalDataset) (ops : List DSOp) :
    (dsRun recompute d ops).GetComponentCount = 1 := rfl

/-- C9: `GetLODLevelCount` returns 1 in every dataset state, no matter
how many bricks (at however many distinct LOD levels) were added. -/
theorem lodLevelCount_always_one
    (recompute : List (BrickKey × List Nat) → List Nat)
    (d : ExternalDataset) (ops : List DSOp) :
    (dsRun recompute d ops).GetLODLevelCount = 1 := rfl

/-- Embeds `ParamFactory::createFrom`, reduced to the wrapper's `code`
field: each known command code yields a freshly constructed wrapper
carrying that code (branch order as in the source switch), every other
value falls through to the default and yields NULL. -/
def ParamFactory.createFrom (cmd : Nat) : Option NetDSCommandCode :=
  if cmd = NetDSCommandCode.nds_OPEN.toNat then some .nds_OPEN
  else if cmd = NetDSCommandCode.nds_CLOSE.toNat then some .nds_CLOSE
  else if cmd = NetDSCommandCode.nds_BRICK.toNat then some .nds_BRICK
  else if cmd = NetDSCommandCode.nds_LIST_FILES.toNat then some .nds_LIST_FILES
  else if cmd = NetDSCommandCode.nds_SHUTDOWN.toNat then some .nds_SHUTDOWN
  else if cmd = NetDSCommandCode.nds_ROTATION.toNat then some .nds_ROTATION
  else if cmd = NetDSCommandCode.nds_BATCHSIZE.toNat then some .nds_BATCHSIZE
  else none

/-- C10: `createFrom` returns a wrapper whose `code` equals `cmd` for
each of the seven known command codes, and NULL for every other value. -/
theorem createFrom_characterization :
    (∀ c : NetDSCommandCode, ParamFactory.createFrom c.toNat = some c) ∧
    (∀ cmd : Nat, 7 ≤ cmd → ParamFactory.createFrom cmd = none) ∧
    (∀ (cmd : Nat) (c : NetDSCommandCode),
        ParamFactory.createFrom cmd = some c → c.toNat = cmd) := by
  refine ⟨fun c => by cases c <;> rfl, ?_, ?_⟩
  · intro cmd h
    simp only [ParamFactory.createFrom, NetDSCommandCode.toNat]
    repeat rw [if_neg (by omega)]
  · intro cmd c h
    simp only [ParamFactory.createFrom, NetDSCommandCode.toNat] at h
    split_ifs at h <;> injection h with h2 <;> subst h2 <;>
      simp_all [NetDSCommandCode.toNat]

/-- C10 witness: the characterization applied at the ROTATION code, at
the unknown command 99, and at the BRICK code. -/
theorem createFrom_witness :
    ParamFactory.createFrom 4 = some NetDSCommandCode.nds_ROTATION ∧
    ParamFactory.createFrom 99 = none ∧
    NetDSCommandCode.toNat .nds_BRICK = 5 :=
  ⟨createFrom_characterization.1 .nds_ROTATION,
   createFrom_characterization.2.1 99 (by decide),
   createFrom_characterization.2.2 5 .nds_BRICK (by decide)⟩

/-! ## OPEN response (`OpenParams::perform`) -/

/-- The dataset views `OpenParams::perform` reads: `GetLODLevelCount`,
`GetBrickLayout(lod, 0)` and the brick iteration from `BricksBegin` to
`BricksEnd` (whose length is `GetTotalBrickCount`). -/
structure DatasetInfo where
  lodCount : Nat
  layout : Nat → Nat × Nat × Nat
  bricks : List (BrickKey × BrickMD)

/-- The brick-layout words of the response: `x, y, z` of
`GetBrickLayout(lod, 0)` for each LOD in order. -/
def layoutWords (ds : DatasetInfo) : List Nat :=
  (List.range ds.lodCount).flatMap (fun lod =>
    [(ds.layout lod).1, (ds.layout lod).2.1, (ds.layout lod).2.2])

/-- The per-brick center words (3 per brick, float bit patterns). -/
def centerWords (ds : DatasetInfo) : List Nat :=
  ds.bricks.flatMap (fun b => [b.2.center.1, b.2.center.2.1, b.2.center.2.2])

/-- The per-brick extents words. -/
def extentWords (ds : DatasetInfo) : List Nat :=
  ds.bricks.flatMap (fun b => [b.2.extents.1, b.2.extents.2.1, b.2.extents.2.2])

/-- The per-brick voxel-count words. -/
def nVoxelWords (ds : DatasetInfo) : List Nat :=
  ds.bricks.flatMap (fun b => [b.2.n_voxels.1, b.2.n_voxels.2.1, b.2.n_voxels.2.2])

/-- Embeds `OpenParams::perform` on rank 0 (after `openFile`): writes the
LOD count, the per-LOD layouts, the total brick count, the per-brick LODs
and linear indices (`std::get<1>` and `std::get<2>` of the key), then the
per-brick centers, extents and voxel counts gathered by the loop over
`BricksBegin()..BricksEnd()`. -/
def OpenParams.perform (ds : DatasetInfo) : List Nat :=
  wrsizet ds.lodCount
  ++ wru32v (layoutWords ds)
  ++ wrsizet ds.bricks.length
  ++ wrsizetv_d (ds.bricks.map (fun b => b.1.lod))
  ++ wrsizetv_d (ds.bricks.map (fun b => b.1.bidx))
  ++ wrf32v_d (centerWords ds)
  ++ wrf32v_d (extentWords ds)
  ++ wru32v_d (nVoxelWords ds)

/-- The OPEN response as the spec's client would decode it. -/
structure OpenResponse where
  lodCount : Nat
  brickLayout : List Nat
  brickCount : Nat
  lods : List Nat
  idxs : List Nat
  centers : List Nat
  extents : List Nat
  nVoxels : List Nat
deriving DecidableEq

/-- Spec-side reader of the OPEN response: `lod_count:u32`, then
`3*lod_count` layout words, `brick_count:u32`, then `brick_count` LODs,
`brick_count` indices, and three runs of `3*brick_count` words for
centers, extents and voxel counts. -/
def readOpenResponse (s : List Nat) : Option (OpenResponse × List Nat) := do
  let (lc, s1) ← ru32 s
  let (layout, s2) ← readU32s (3 * lc) s1
  let (bc, s3) ← ru32 s2
  let (lods, s4) ← readU32s bc s3
  let (idxs, s5) ← readU32s bc s4
  let (centers, s6) ← readU32s (3 * bc) s5
  let (extents, s7) ← readU32s (3 * bc) s6
  let (nv, s8) ← readU32s (3 * bc) s7
  some (⟨lc, layout, bc, lods, idxs, centers, extents, nv⟩, s8)

/-- Wire words are 32-bit quantities. -/
def DatasetInfo.WF (ds : DatasetInfo) : Prop :=
  ds.lodCount < 4294967296 ∧
  ds.bricks.length < 4294967296 ∧
  (∀ w ∈ layoutWords ds, w < 4294967296) ∧
  (∀ b ∈ ds.bricks, b.1.lod < 4294967296 ∧ b.1.bidx < 4294967296) ∧
  (∀ w ∈ centerWords ds, w < 4294967296) ∧
  (∀ w ∈ extentWords ds, w < 4294967296) ∧
  (∀ w ∈ nVoxelWords ds, w < 4294967296)

theorem ru32_wru32 (n : Nat) (r : List Nat) :
    ru32 (wru32 n ++ r) = some (n % 4294967296, r) := by
  simp only [wru32, ru32, List.cons_append, List.nil_append]
  refine congrArg some (Prod.ext ?_ rfl)
  show ((n / 16777216 % 256 * 256 + n / 65536 % 256) * 256 + n / 256 % 256) * 256
      + n % 256 = n % 4294967296
  omega

theorem readU32s_flatMap (xs : List Nat) (hx : ∀ x ∈ xs, x < 4294967296)
    (r : List Nat) :
    readU32s xs.length (xs.flatMap wru32 ++ r) = some (xs, r) := by
  induction xs with
  | nil => simp [readU32s]
  | cons a as ih =>
      have ha : a < 4294967296 := hx a (List.mem_cons_self a as)
      have ih2 := ih (fun x h => hx x (List.mem_cons_of_mem a h))
      simp only [List.length_cons, List.flatMap_cons, List.append_assoc, readU32s,
        ru32_wru32, Nat.mod_eq_of_lt ha, Option.bind_eq_bind, Option.some_bind, ih2]

theorem length_flatMap_of_three {α : Type} (l : List α) (f : α → List Nat)
    (hf : ∀ a, (f a).length = 3) : (l.flatMap f).length = 3 * l.length := by
  induction l with
  | nil => simp
  | cons a as ih =>
      simp only [List.flatMap_cons, List.length_append, hf a, ih, List.length_cons]
      omega

theorem layoutWords_length (ds : DatasetInfo) :
    (layoutWords ds).length = 3 * ds.lodCount := by
  unfold layoutWords
  rw [length_flatMap_of_three (List.range ds.lodCount)
    (fun lod => [(ds.layout lod).1, (ds.layout lod).2.1, (ds.layout lod).2.2])
    (fun _ => rfl), List.length_range]

theorem centerWords_length (ds : DatasetInfo) :
    (centerWords ds).length = 3 * ds.bricks.length :=
  length_flatMap_of_three ds.bricks
    (fun b => [b.2.center.1, b.2.center.2.1, b.2.center.2.2]) (fun _ => rfl)

theorem extentWords_length (ds : DatasetInfo) :
    (extentWords ds).length = 3 * ds.bricks.length :=
  length_flatMap_of_three ds.bricks
    (fun b => [b.2.extents.1, b.2.extents.2.1, b.2.extents.2.2]) (fun _ => rfl)

theorem nVoxelWords_length (ds : DatasetInfo) :
    (nVoxelWords ds).length = 3 * ds.bricks.length :=
  length_flatMap_of_three ds.bricks
    (fun b => [b.2.n_voxels.1, b.2.n_voxels.2.1, b.2.n_voxels.2.2]) (fun _ => rfl)

theorem readU32s_count_flatMap (n : Nat) (xs : List Nat) (hn : n = xs.length)
    (hx : ∀ x ∈ xs, x < 4294967296) (r : List Nat) :
    readU32s n (xs.flatMap wru32 ++ r) = some (xs, r) :=
  hn ▸ readU32s_flatMap xs hx r

theorem readU32s_count_flatMap_nil (n : Nat) (xs : List Nat) (hn : n = xs.length)
    (hx : ∀ x ∈ xs, x < 4294967296) :
    readU32s n (xs.flatMap wru32) = some (xs, []) := by
  rw [← List.append_nil (xs.flatMap wru32)]
  exact readU32s_count_flatMap n xs hn hx []

/-- C4: the OPEN response consists exactly, in order, of the LOD count,
`3*lod_count` brick-layout words, the brick count, the per-brick LODs and
linear indices, then the per-brick centers, extents and voxel counts
(3 words per brick each), every count and word sent as a 32-bit
big-endian quantity: the spec-side reader recovers precisely these
fields from the bytes `perform` wrote, with nothing left over. -/
theorem open_perform_wire_layout (ds : DatasetInfo) (hwf : ds.WF) :
    readOpenResponse (OpenParams.perform ds) =
      some (⟨ds.lodCount, layoutWords ds, ds.bricks.length,
             ds.bricks.map (fun b => b.1.lod),
             ds.bricks.map (fun b => b.1.bidx),
             centerWords ds, extentWords ds, nVoxelWords ds⟩, []) := by
  obtain ⟨h1, h2, h3, h4, h5, h6, h7⟩ := hwf
  have hlods : ∀ x ∈ ds.bricks.map (fun b => b.1.lod), x < 4294967296 := by
    intro x hx
    rcases List.mem_map.1 hx with ⟨b, hb, rfl⟩
    exact (h4 b hb).1
  have hidxs : ∀ x ∈ ds.bricks.map (fun b => b.1.bidx), x < 4294967296 := by
    intro x hx
    rcases List.mem_map.1 hx with ⟨b, hb, rfl⟩
    exact (h4 b hb).2
  simp only [OpenParams.perform, readOpenResponse, wrsizet, wru32v, wrsizetv_d,
    wrf32v_d, wru32v_d, List.append_assoc]
  rw [ru32_wru32, Nat.mod_eq_of_lt h1]
  simp only [Option.bind_eq_bind, Option.some_bind]
  rw [readU32s_count_flatMap _ _ (layoutWords_length ds).symm h3]
  simp only [Option.some_bind]
  rw [ru32_wru32, Nat.mod_eq_of_lt h2]
  simp only [Option.some_bind]
  rw [readU32s_count_flatMap _ _ (List.length_map ds.bricks (fun b => b.1.lod)).symm hlods]
  simp only [Option.some_bind]
  rw [readU32s_count_flatMap _ _ (List.length_map ds.bricks (fun b => b.1.bidx)).symm hidxs]
  simp only [Option.some_bind]
  rw [readU32s_count_flatMap _ _ (centerWords_length ds).symm h5]
  simp only [Option.some_bind]
  rw [readU32s_count_flatMap _ _ (extentWords_length ds).symm h6]
  simp only [Option.some_bind]
  rw [readU32s_count_flatMap_nil _ _ (nVoxelWords_length ds).symm h7]
  simp only [Option.some_bind]

/-- A 2-LOD dataset with layouts `(2,2,2)` and `(1,1,1)` and two bricks. -/
def dsInfoExample : DatasetInfo where
  lodCount := 2
  layout := fun lod => if lod = 0 then (2, 2, 2) else (1, 1, 1)
  bricks := [(⟨0, 0, 0⟩, ⟨(1, 2, 3), (4, 5, 6), (8, 8, 8)⟩),
             (⟨0, 1, 0⟩, ⟨(7, 8, 9), (10, 11, 12), (4, 4, 4)⟩)]

/-- C4 witness: the wire-layout theorem evaluated on the concrete 2-LOD,
2-brick dataset. -/
theorem open_perform_wire_layout_witness :
    readOpenResponse (OpenParams.perform dsInfoExample) =
      some (⟨2, [2, 2, 2, 1, 1, 1], 2, [0, 1], [0, 0],
             [1, 2, 3, 7, 8, 9], [4, 5, 6, 10, 11, 12],
             [8, 8, 8, 4, 4, 4]⟩, []) :=
  open_perform_wire_layout dsInfoExample (by unfold DatasetInfo.WF; decide)

/-! ## Renderer state setup (`GLSBVR2D.cpp`)

The blend/depth portion of the GL state machine is modelled as a record;
`Render3DPreLoop` and `RenderHQMIPPreLoop` become state transformers.
Calls into the slice-geometry generator (`m_SBVRGeogen`) touch no GL
state and carry no observable named here, so they do not appear in the
record.  `RenderHQMIPPreLoop` first calls the base-class method, embedded
as an arbitrary transformer parameter. -/

inductive BlendFactor
  | gl_ONE
  | gl_ONE_MINUS_DST_ALPHA
deriving DecidableEq

inductive BlendEquation
  | gl_FUNC_ADD
  | gl_MAX
deriving DecidableEq

/-- The shader programs of `GLSBVR2D` (the 1-D and 2-D transfer-function
programs come in plain and lighting variants). -/
inductive ShaderId
  | program1DTrans (lighting : Bool)
  | program2DTrans (lighting : Bool)
  | programIso
  | programColor
  | programIsoNoCompose
  | programColorNoCompose
  | programHQMIPRot
deriving DecidableEq

inductive AbstrRenderMode
  | RM_1DTRANS
  | RM_2DTRANS
  | RM_ISOSURFACE
  | RM_INVALID
deriving DecidableEq

/-- The GL state the pre-loop functions manipulate: blend enable, blend
factors, blend equation, depth test, the enabled shader and the texture
bound to unit 1 (1 for the 1-D, 2 for the 2-D transfer function). -/
structure GLState where
  blendEnabled : Bool
  blendSrc : BlendFactor
  blendDst : BlendFactor
  blendEq : BlendEquation
  depthTestEnabled : Bool
  activeShader : Option ShaderId
  boundTransferTex : Option Nat
deriving DecidableEq

/-- Embeds the render-mode switch of `GLSBVR2D::Render3DPreLoop`:
1-D and 2-D transfer-function modes bind their transfer texture, enable
their shader and turn on blending with factors
`(ONE_MINUS_DST_ALPHA, ONE)`; isosurface mode either does the same with
the no-compose shaders (fast path) or merely enables the depth test;
an invalid mode only reports an error. -/
def GLSBVR2D.Render3DPreLoop (mode : AbstrRenderMode)
    (useLighting avoidCompose : Bool) (componentCount : Nat)
    (s : GLState) : GLState :=
  match mode with
  | .RM_1DTRANS =>
      { s with boundTransferTex := some 1,
               activeShader := some (.program1DTrans useLighting),
               blendEnabled := true,
               blendSrc := .gl_ONE_MINUS_DST_ALPHA,
               blendDst := .gl_ONE }
  | .RM_2DTRANS =>
      { s with boundTransferTex := some 2,
               activeShader := some (.program2DTrans useLighting),
               blendEnabled := true,
               blendSrc := .gl_ONE_MINUS_DST_ALPHA,
               blendDst := .gl_ONE }
  | .RM_ISOSURFACE =>
      if avoidCompose then
        { s with activeShader := some (if componentCount = 1
                   then .programIsoNoCompose else .programColorNoCompose),
                 blendEnabled := true,
                 blendSrc := .gl_ONE_MINUS_DST_ALPHA,
                 blendDst := .gl_ONE }
      else
        { s with depthTestEnabled := true }
  | .RM_INVALID => s

/-- Embeds `GLSBVR2D::RenderHQMIPPreLoop`: after the base-class call it
enables the HQ-MIP shader, sets blend factors `(ONE, ONE)`, blend
equation `MAX`, enables blending and disables the depth test. -/
def GLSBVR2D.RenderHQMIPPreLoop (parent : GLState → GLState) (s : GLState) :
    GLState :=
  let s1 := parent s
  { s1 with activeShader := some .programHQMIPRot,
            blendSrc := .gl_ONE,
            blendDst := .gl_ONE,
            blendEq := .gl_MAX,
            blendEnabled := true,
            depthTestEnabled := false }

/-- C5: before the per-brick loop, 1-D and 2-D transfer-function modes
have blending enabled with factors `(ONE_MINUS_DST_ALPHA, ONE)`, and
high-quality MIP mode has blend equation `MAX` with the depth test
disabled, from any prior GL state and for any base-class behavior. -/
theorem blend_state_by_mode (s : GLState) (useLighting avoidCompose : Bool)
    (componentCount : Nat) (parent : GLState → GLState) :
    ((GLSBVR2D.Render3DPreLoop .RM_1DTRANS useLighting avoidCompose
        componentCount s).blendEnabled = true ∧
     (GLSBVR2D.Render3DPreLoop .RM_1DTRANS useLighting avoidCompose
        componentCount s).blendSrc = .gl_ONE_MINUS_DST_ALPHA ∧
     (GLSBVR2D.Render3DPreLoop .RM_1DTRANS useLighting avoidCompose
        componentCount s).blendDst = .gl_ONE) ∧
    ((GLSBVR2D.Render3DPreLoop .RM_2DTRANS useLighting avoidCompose
        componentCount s).blendEnabled = true ∧
     (GLSBVR2D.Render3DPreLoop .RM_2DTRANS useLighting avoidCompose
        componentCount s).blendSrc = .gl_ONE_MINUS_DST_ALPHA ∧
     (GLSBVR2D.Render3DPreLoop .RM_2DTRANS useLighting avoidCompose
        componentCount s).blendDst = .gl_ONE) ∧
    ((GLSBVR2D.RenderHQMIPPreLoop parent s).blendEq = .gl_MAX ∧
     (GLSBVR2D.RenderHQMIPPreLoop parent s).depthTestEnabled = false ∧
     (GLSBVR2D.RenderHQMIPPreLoop parent s).blendEnabled = true) :=
  ⟨⟨rfl, rfl, rfl⟩, ⟨rfl, rfl, rfl⟩, ⟨rfl, rfl, rfl⟩⟩

/-! ## Per-brick shader uniforms (`GLSBVR2D::SetBrickDepShaderVars`)

Float arithmetic here stays inside `ℚ[√2]`: every value the function
computes is `a + b·√2` with rational `a, b`, represented exactly by the
coefficient pair (the representation is faithful because `{1, √2}` is
linearly independent over `ℚ`). -/

/-- An exact value `a + b·√2`. -/
structure FVal where
  a : ℚ
  b : ℚ
deriving DecidableEq

inductive UniformName
  | fStepScale
  | vVoxelStepsize
deriving DecidableEq

inductive UniformVal
  | scalar (v : FVal)
  | vec3 (x y z : FVal)
deriving DecidableEq

/-- The `SetUniformVector` calls a function issues, in order. -/
abbrev UniformSet := List (ShaderId × UniformName × UniformVal)

/-- Component-wise maximum of a 3-vector (`maxVal`). -/
def maxVal3 (v : ℚ × ℚ × ℚ) : ℚ := max v.1 (max v.2.1 v.2.2)

/-- Component-wise division of 3-vectors. -/
def div3 (u v : ℚ × ℚ × ℚ) : ℚ × ℚ × ℚ :=
  (u.1 / v.1, u.2.1 / v.2.1, u.2.2 / v.2.2)

/-- Embeds `GLSBVR2D::SetBrickDepShaderVars`: `vStep` is the reciprocal
of the brick's voxel count per component; the effective sample-rate
modifier is divided by the decrease factor while the sampling rate is
lowered; `fStepScale` is `sqrt(2)/modifier` times the largest component
of the domain size divided by the domain size at the current LOD.  Which
uniforms are then set depends on the render mode: 1-D TF sets
`fStepScale` on its shader and `vVoxelStepsize` only in the lighting
variant; 2-D TF sets both; isosurface sets only `vVoxelStepsize` on the
shader picked by the fast path and the component count; an invalid mode
sets none. -/
def GLSBVR2D.SetBrickDepShaderVars (mode : AbstrRenderMode)
    (useLighting avoidCompose : Bool) (componentCount : Nat)
    (voxelCount : ℚ × ℚ × ℚ) (sampleRateModifier : ℚ)
    (decreaseSamplingRateNow : Bool) (sampleDecFactor : ℚ)
    (domainSize domainSizeLod : ℚ × ℚ × ℚ) : UniformSet :=
  let vStep : FVal × FVal × FVal :=
    (⟨1 / voxelCount.1, 0⟩, ⟨1 / voxelCount.2.1, 0⟩, ⟨1 / voxelCount.2.2, 0⟩)
  let fSRM : ℚ :=
    sampleRateModifier / (if decreaseSamplingRateNow then sampleDecFactor else 1)
  let fStepScaleVal : FVal := ⟨0, maxVal3 (div3 domainSize domainSizeLod) / fSRM⟩
  match mode with
  | .RM_1DTRANS =>
      [(.program1DTrans useLighting, .fStepScale, .scalar fStepScaleVal)]
      ++ (if useLighting then
            [(.program1DTrans true, .vVoxelStepsize,
              .vec3 vStep.1 vStep.2.1 vStep.2.2)]
          else [])
  | .RM_2DTRANS =>
      [(.program2DTrans useLighting, .fStepScale, .scalar fStepScaleVal),
       (.program2DTrans useLighting, .vVoxelStepsize,
        .vec3 vStep.1 vStep.2.1 vStep.2.2)]
  | .RM_ISOSURFACE =>
      [((if avoidCompose then
           (if componentCount = 1 then ShaderId.programIsoNoCompose
            else ShaderId.programColorNoCompose)
         else
           (if componentCount = 1 then ShaderId.programIso
            else ShaderId.programColor)),
        .vVoxelStepsize, .vec3 vStep.1 vStep.2.1 vStep.2.2)]
  | .RM_INVALID => []

/-- C6 counterexample: in 1-D transfer-function mode with lighting off,
the per-brick setup issues no `vVoxelStepsize` uniform at all, and in
isosurface mode it issues no `fStepScale`, contradicting the claim that
both uniforms are set for every brick in every render mode. -/
theorem voxelStepsize_not_set_1dtrans_nolight :
    (∀ e ∈ GLSBVR2D.SetBrickDepShaderVars .RM_1DTRANS false false 1 (8, 8, 8) 1
        false 2 (1, 1, 1) (1, 1, 1),
      e.2.1 ≠ UniformName.vVoxelStepsize) ∧
    (∀ e ∈ GLSBVR2D.SetBrickDepShaderVars .RM_ISOSURFACE false false 1 (8, 8, 8) 1
        false 2 (1, 1, 1) (1, 1, 1),
      e.2.1 ≠ UniformName.fStepScale) := by
  decide

/-- C6 amended: the uniform values are as specified —
`vVoxelStepsize = 1/n_voxels` component-wise and `fStepScale = √2 divided
by the sample rate times the largest component of the domain size over
the domain size at the current LOD` (sampling-rate decrease inactive) —
but which of them are set depends on the mode: 1-D TF sets `fStepScale`
always and `vVoxelStepsize` only with lighting, 2-D TF sets both,
isosurface sets only `vVoxelStepsize`, and an invalid mode sets none. -/
theorem setBrickDepShaderVars_characterization
    (useLighting avoidCompose : Bool) (componentCount : Nat)
    (voxelCount : ℚ × ℚ × ℚ) (sampleRateModifier : ℚ)
    (sampleDecFactor : ℚ) (domainSize domainSizeLod : ℚ × ℚ × ℚ) :
    (GLSBVR2D.SetBrickDepShaderVars .RM_1DTRANS useLighting avoidCompose
        componentCount voxelCount sampleRateModifier false sampleDecFactor
        domainSize domainSizeLod
      = [(.program1DTrans useLighting, .fStepScale,
          .scalar ⟨0, maxVal3 (div3 domainSize domainSizeLod) / sampleRateModifier⟩)]
        ++ (if useLighting then
              [(.program1DTrans true, .vVoxelStepsize,
                .vec3 ⟨1 / voxelCount.1, 0⟩ ⟨1 / voxelCount.2.1, 0⟩
                  ⟨1 / voxelCount.2.2, 0⟩)]
            else [])) ∧
    (GLSBVR2D.SetBrickDepShaderVars .RM_2DTRANS useLighting avoidCompose
        componentCount voxelCount sampleRateModifier false sampleDecFactor
        domainSize domainSizeLod
      = [(.program2DTrans useLighting, .fStepScale,
          .scalar ⟨0, maxVal3 (div3 domainSize domainSizeLod) / sampleRateModifier⟩),
         (.program2DTrans useLighting, .vVoxelStepsize,
          .vec3 ⟨1 / voxelCount.1, 0⟩ ⟨1 / voxelCount.2.1, 0⟩
            ⟨1 / voxelCount.2.2, 0⟩)]) ∧
    (GLSBVR2D.SetBrickDepShaderVars .RM_ISOSURFACE useLighting avoidCompose
        componentCount voxelCount sampleRateModifier false sampleDecFactor
        domainSize domainSizeLod
      = [((if avoidCompose then
             (if componentCount = 1 then ShaderId.programIsoNoCompose
              else ShaderId.programColorNoCompose)
           else
             (if componentCount = 1 then ShaderId.programIso
              else ShaderId.programColor)),
          .vVoxelStepsize,
          .vec3 ⟨1 / voxelCount.1, 0⟩ ⟨1 / voxelCount.2.1, 0⟩
            ⟨1 / voxelCount.2.2, 0⟩)]) ∧
    (GLSBVR2D.SetBrickDepShaderVars .RM_INVALID useLighting avoidCompose
        componentCount voxelCount sampleRateModifier false sampleDecFactor
        domainSize domainSizeLod
      = []) := by
  refine ⟨?_, ?_, ?_, rfl⟩ <;>
    simp only [GLSBVR2D.SetBrickDepShaderVars, if_neg Bool.false_ne_true, div_one]
